import Mathlib

/-!
Verification of the DBWappizyToSmartDiet migration engine.

This file is a shallow embedding, in Lean 4, of the parts of the Python
source that the verified claims are about:

* `src/migration/import_strategies.py` (ImportUtils: build_date_filter,
  execute_direct_sql, handle_batch_errors, write_sql_file, execute_batch),
* `src/migration/repositories/mongo_repo.py` (MongoRepository.build_date_filter),
* `src/migration/import_summary.py` (ImportSummary counters),
* `src/migration/data_export.py` (get_last_insert_date),
* `src/migration/runner.py` (apply_global_threshold),
* `src/schemas/table_schemas.py` (TableSchema, get_on_conflict_clause),
* `transfert_data.py` (the per-batch delete-and-insert step of the main loop).

Python strings are Lean `String`, Python integer timestamps are `Nat`
(the origin of the axis is the 1900-01-01 sentinel used by the watermark
query), database effects are made explicit as event lists, and the
database responses to INSERT statements (row counts, integrity errors)
are abstracted as an input `DbBehavior`, since they come from the engine.
-/

/-! ### String helpers mirroring the Python primitives used by the source

Python substring containment (the `in` operator), `str.lower`, slicing
`[:100]`, and single-quote escaping are modelled character-wise so that
every definition is executable and kernel-reducible. -/

/-- Boolean test that the first character list is a prefix of the second. -/
def chListPrefix : List Char → List Char → Bool
  | [], _ => true
  | _ :: _, [] => false
  | a :: as, b :: bs => a = b && chListPrefix as bs

/-- Boolean test that the first character list occurs as a contiguous
sublist of the second; mirrors the semantics of the Python `in` operator
on strings (the empty needle is contained in everything). -/
def chListContains (needle : List Char) : List Char → Bool
  | [] => needle.isEmpty
  | c :: rest => chListPrefix needle (c :: rest) || chListContains needle rest

/-- Python `needle in haystack` on strings. -/
def pyContains (haystack needle : String) : Bool :=
  chListContains needle.data haystack.data

/-- Python `s.lower()`. -/
def pyLower (s : String) : String :=
  String.mk (s.data.map Char.toLower)

/-- Python slicing `s[:n]`. -/
def pyTake (n : Nat) (s : String) : String :=
  String.mk (s.data.take n)

/-- The single-quote character, written via its code point. -/
def squote : Char := Char.ofNat 39

/-- Python `value.replace("{single quote}", "{two single quotes}")` used by
the SQL file writer to escape string values. -/
def escapeSingleQuotes (s : String) : String :=
  String.mk (s.data.flatMap fun c => if c = squote then [squote, squote] else [c])

/-! ### Dates, datetimes and MongoDB date filters

`src/migration/import_strategies.py` lines 25-34 and
`src/migration/repositories/mongo_repo.py` lines 5-20 both define a
`build_date_filter(after_date)`.  A Python `datetime` is distinguished
from a `date` by `hasattr(after_date, "date")` (only datetimes carry a
`date` attribute); a plain date is converted with
`datetime.combine(after_date, time.min)`, i.e. to midnight. -/

/-- A naive datetime: a day number on the proleptic calendar axis plus
seconds within the day. -/
structure Datetime where
  day : Nat
  secs : Nat
deriving DecidableEq, Repr

/-- The `after_date` argument: absent (`None`), a bare `date`, or a
`datetime`. -/
inductive PyDateLike where
  | date (day : Nat)
  | datetime (day : Nat) (secs : Nat)
deriving DecidableEq, Repr

/-- Conversion `datetime.combine(d, time.min)` for a bare date, identity for a
datetime: the cutoff actually placed into the filter. -/
def toCutoff : PyDateLike → Datetime
  | .date d => ⟨d, 0⟩
  | .datetime d s => ⟨d, s⟩

/-- One clause of a MongoDB filter document, as used by the two date
filters: either a single `{field: {$gte: cutoff}}` constraint or an
`$or` of such constraints. -/
inductive FilterClause where
  | gte (field : String) (cutoff : Datetime)
  | orGte (disjuncts : List (String × Datetime))
deriving DecidableEq, Repr

/-- A MongoDB filter document restricted to the shapes produced by the
date filters; the empty list is the empty filter `{}`. -/
abbrev MongoDateFilter := List FilterClause

/-- Function `ImportUtils.build_date_filter` from
`src/migration/import_strategies.py` lines 25-34: an absent watermark
yields the empty filter; otherwise the filter constrains only
`creation_date`. -/
def ImportUtils.build_date_filter : Option PyDateLike → MongoDateFilter
  | none => []
  | some d => [.gte "creation_date" (toCutoff d)]

/-- Function `MongoRepository.build_date_filter` from
`src/migration/repositories/mongo_repo.py` lines 5-20: an absent
watermark yields the empty filter; otherwise the filter is the
disjunction of `creation_date >= cutoff` and `update_date >= cutoff`. -/
def MongoRepository.build_date_filter : Option PyDateLike → MongoDateFilter
  | none => []
  | some d =>
      [.orGte [("creation_date", toCutoff d), ("update_date", toCutoff d)]]

/-- Claim C1: the repository has two date-filter builders.
`MongoRepository.build_date_filter` produces the claimed disjunction
filter, but `ImportUtils.build_date_filter` — the one used by
`DirectTranslationStrategy`, `ArrayExtractionStrategy` and the
strategies built in `src/schemas/schemas.py`, and hence by the
`transfert_data.py` main loop whose own comment documents the `$or`
filter — constrains only `creation_date`, so documents that were only
updated after the watermark are missed.  Evaluated here at the concrete
cutoff datetime day 739252, midnight. -/
theorem C1_build_date_filter_divergence :
    ImportUtils.build_date_filter (some (.datetime 739252 0)) =
      [.gte "creation_date" ⟨739252, 0⟩]
    ∧ MongoRepository.build_date_filter (some (.datetime 739252 0)) =
      [.orGte [("creation_date", ⟨739252, 0⟩), ("update_date", ⟨739252, 0⟩)]]
    ∧ ImportUtils.build_date_filter (some (.datetime 739252 0)) ≠
      MongoRepository.build_date_filter (some (.datetime 739252 0))
    ∧ ImportUtils.build_date_filter none = []
    ∧ MongoRepository.build_date_filter none = [] := by
  refine ⟨rfl, rfl, ?_, rfl, rfl⟩
  decide

/-! ### Row values and the import summary

`src/migration/import_summary.py`: `ImportSummary.stats` maps each table
to `{good, bad[reason], skipped, failed_records}`; `record_error` keeps
at most `max_failed_records = 10` sample failing rows.  Each
`execute_batch` call works against a single table name, so the model
carries the stats entry of that table. -/

/-- A Python value appearing in a row to insert: `None`, a string, a
datetime (carried by its `isoformat()` rendering), or any other scalar
(carried by its `str()` rendering). -/
inductive PyValue where
  | null
  | str (s : String)
  | dt (isoformat : String)
  | other (repr : String)
deriving DecidableEq, Repr

/-- A row of values to insert, in column order. -/
abbrev PyRow := List PyValue

/-- Python `values[0] if values else "unknown"`: the id stored with a failed
record (lines 58 and 69 of import_strategies.py). -/
def failedRecordId (values : PyRow) : PyValue :=
  values.headD (.str "unknown")

/-- The per-table entry of `ImportSummary.stats`: the `good` and
`skipped` counters, the `bad` reason-to-count mapping, and the bounded
list of sample failing rows (reason paired with the record id). -/
structure EntityStats where
  good : Nat := 0
  bad : List (String × Nat) := []
  skipped : Nat := 0
  failed_records : List (String × PyValue) := []
deriving DecidableEq, Repr

/-- Constant `self.max_failed_records = 10` from import_summary.py. -/
def max_failed_records : Nat := 10

/-- Increment the count stored under a reason, starting it at 1 when the
reason is new (the `defaultdict(int)` behaviour of `bad`). -/
def bumpReason : List (String × Nat) → String → List (String × Nat)
  | [], r => [(r, 1)]
  | (k, v) :: rest, r =>
      if k = r then (k, v + 1) :: rest else (k, v) :: bumpReason rest r

/-- Total count recorded under one reason. -/
def badCount : List (String × Nat) → String → Nat
  | [], _ => 0
  | p :: t, r => (if p.1 = r then p.2 else 0) + badCount t r

/-- Total count recorded across all reasons. -/
def badTotal : List (String × Nat) → Nat
  | [] => 0
  | p :: t => p.2 + badTotal t

/-- Method `ImportSummary.record_success(entity, count)`. -/
def record_success (s : EntityStats) (count : Nat) : EntityStats :=
  { s with good := s.good + count }

/-- Method `ImportSummary.record_error(entity, reason, failed_record)`: bumps
`bad[reason]` and stores the sample only while fewer than
`max_failed_records` samples are held. -/
def record_error (s : EntityStats) (reason : String) (recordId : PyValue) :
    EntityStats :=
  { s with
    bad := bumpReason s.bad reason
    failed_records :=
      if s.failed_records.length < max_failed_records then
        s.failed_records ++ [(reason, recordId)]
      else s.failed_records }

/-- Method `ImportSummary.record_skipped(entity, count)`. -/
def record_skipped (s : EntityStats) (count : Nat) : EntityStats :=
  { s with skipped := s.skipped + count }

/-! ### The abstract database and the cursor event log

The engine's responses to the issued statements are inputs of the model:
`executemany` either reports a row count, raises an integrity error, or
raises an unexpected (fatal) exception; each individual row insert
either succeeds, raises an integrity error with an engine message, or
raises an unexpected exception with a message. -/

/-- Response of the engine to one `cursor.execute(sql, values)` of a
single row. -/
inductive RowOutcome where
  | ok
  | integrityError (msg : String)
  | unexpected (msg : String)
deriving DecidableEq, Repr

/-- Response of the engine to `cursor.executemany(sql, batch)`. -/
inductive BatchOutcome where
  | ok (rowcount : Nat)
  | integrityError
  | fatalError
deriving DecidableEq, Repr

/-- The engine behaviour an `execute_direct_sql` call runs against: the
batched statement outcome and, for each row index, the outcome of its
individual retry. -/
structure DbBehavior where
  batchOutcome : BatchOutcome
  rowOutcome : Nat → RowOutcome

/-- One observable cursor/connection action, in program order. -/
inductive CursorEvent where
  | savepoint (name : String)
  | executemany
  | executeRow (idx : Nat)
  | releaseSavepoint (name : String)
  | rollbackToSavepoint (name : String)
  | commit
  | rollback
deriving DecidableEq, Repr

/-- Classification of an integrity-error message, lines 57-65
of import_strategies.py (also lines 143-154 of postgres_repo.py): the
message is lowercased, then matched for a foreign-key violation, then a
null violation; anything else is recorded under a reason carrying the
first 100 characters of the engine message. -/
def classifyIntegrityError (msg : String) : String :=
  let m := pyLower msg
  if pyContains m "foreign key constraint" then "Foreign key constraint"
  else if pyContains m "null value" || pyContains m "not-null constraint" then
    "NULL constraint"
  else "Other integrity error: " ++ pyTake 100 msg

/-- The summary reason a row with the given retry outcome is recorded
under, or `none` for a successful row (lines 48-71
of import_strategies.py). -/
def recordedReason : RowOutcome → Option String
  | .ok => none
  | .integrityError msg => some (classifyIntegrityError msg)
  | .unexpected msg => some ("Unexpected error: " ++ pyTake 100 msg)

/-- The per-row retry loop of `ImportUtils.handle_batch_errors`
(import_strategies.py lines 48-71): each row is attempted under its own
`individual_retry` savepoint; a success releases the savepoint and
counts, any failure rolls back to the savepoint, records one summary
error and continues with the next row.  `i` is the index of the first
row of `rows` within the batch. -/
def retryRows (ro : Nat → RowOutcome) :
    Nat → List PyRow → EntityStats → Nat × EntityStats × List CursorEvent
  | _, [], s => (0, s, [])
  | i, values :: rest, s =>
    match ro i with
    | .ok =>
        let r := retryRows ro (i + 1) rest (record_success s 1)
        (r.1 + 1, r.2.1,
          [.savepoint "individual_retry", .executeRow i,
            .releaseSavepoint "individual_retry"] ++ r.2.2)
    | .integrityError msg =>
        let s1 := record_error s (classifyIntegrityError msg)
          (failedRecordId values)
        let r := retryRows ro (i + 1) rest s1
        (r.1, r.2.1,
          [.savepoint "individual_retry", .executeRow i,
            .rollbackToSavepoint "individual_retry"] ++ r.2.2)
    | .unexpected msg =>
        let s1 := record_error s ("Unexpected error: " ++ pyTake 100 msg)
          (failedRecordId values)
        let r := retryRows ro (i + 1) rest s1
        (r.1, r.2.1,
          [.savepoint "individual_retry", .executeRow i,
            .rollbackToSavepoint "individual_retry"] ++ r.2.2)

/-- Method `ImportUtils.handle_batch_errors` (import_strategies.py lines
36-75): runs the per-row retry over the whole batch and commits. -/
def handleBatchErrors (batch : List PyRow) (ro : Nat → RowOutcome)
    (s : EntityStats) : Nat × EntityStats × List CursorEvent :=
  let r := retryRows ro 0 batch s
  (r.1, r.2.1, r.2.2 ++ [.commit])

/-- The `else` branch of `execute_direct_sql` for `IMPORT_BY_BATCH =
False` (import_strategies.py lines 238-262): rows one at a time under an
`individual_insert` savepoint; only integrity errors are caught there —
an unexpected exception reaches the outer handler, which rolls the
connection back and re-raises (modelled as `Except.error` carrying the
summary and events up to that point). -/
def individualInserts (ro : Nat → RowOutcome) :
    Nat → List PyRow → EntityStats →
    Except (EntityStats × List CursorEvent)
      (Nat × EntityStats × List CursorEvent)
  | _, [], s => .ok (0, s, [.commit])
  | i, values :: rest, s =>
    match ro i with
    | .ok =>
        match individualInserts ro (i + 1) rest (record_success s 1) with
        | .ok (c, s2, ev) =>
            .ok (c + 1, s2,
              [.savepoint "individual_insert", .executeRow i,
                .releaseSavepoint "individual_insert"] ++ ev)
        | .error (s2, ev) =>
            .error (s2,
              [.savepoint "individual_insert", .executeRow i,
                .releaseSavepoint "individual_insert"] ++ ev)
    | .integrityError msg =>
        let s1 := record_error s (classifyIntegrityError msg)
          (failedRecordId values)
        match individualInserts ro (i + 1) rest s1 with
        | .ok (c, s2, ev) =>
            .ok (c, s2,
              [.savepoint "individual_insert", .executeRow i,
                .rollbackToSavepoint "individual_insert"] ++ ev)
        | .error (s2, ev) =>
            .error (s2,
              [.savepoint "individual_insert", .executeRow i,
                .rollbackToSavepoint "individual_insert"] ++ ev)
    | .unexpected _ =>
        .error (s, [.savepoint "individual_insert", .executeRow i, .rollback])

/-- Method `ImportUtils.execute_direct_sql` (import_strategies.py lines
185-270), with the module constant `IMPORT_BY_BATCH` as a parameter.
An empty batch or an empty column list returns 0 before any statement is
issued.  In batch mode: a `batch_insert` savepoint is opened and
`executemany` runs; on success without an upsert clause a row count
different from the batch length rolls back to the savepoint and falls
through to the per-row retry; otherwise the savepoint is released, the
row count is recorded as successes, any shortfall versus the batch
length as skipped, and the transaction commits; an integrity error rolls
back to the savepoint and enters the per-row retry; an unexpected error
rolls the connection back and propagates. -/
def ImportUtils.execute_direct_sql (importByBatch useOnConflict : Bool)
    (batch : List PyRow) (columns : List String) (db : DbBehavior)
    (s : EntityStats) :
    Except (EntityStats × List CursorEvent)
      (Nat × EntityStats × List CursorEvent) :=
  if batch.isEmpty || columns.isEmpty then .ok (0, s, [])
  else if importByBatch then
    match db.batchOutcome with
    | .ok rowcount =>
        if useOnConflict = false ∧ rowcount ≠ batch.length then
          let r := handleBatchErrors batch db.rowOutcome s
          .ok (r.1, r.2.1,
            [.savepoint "batch_insert", .executemany,
              .rollbackToSavepoint "batch_insert"] ++ r.2.2)
        else
          let skipped := batch.length - rowcount
          let s1 := record_success s rowcount
          let s2 := if skipped > 0 then record_skipped s1 skipped else s1
          .ok (rowcount, s2,
            [.savepoint "batch_insert", .executemany,
              .releaseSavepoint "batch_insert", .commit])
    | .integrityError =>
        let r := handleBatchErrors batch db.rowOutcome s
        .ok (r.1, r.2.1,
          [.savepoint "batch_insert", .executemany,
            .rollbackToSavepoint "batch_insert"] ++ r.2.2)
    | .fatalError =>
        .error (s, [.savepoint "batch_insert", .executemany, .rollback])
  else individualInserts db.rowOutcome 0 batch s

/-- Python truthiness of the `on_conflict_clause` argument (`if
on_conflict_clause:` — both `None` and the empty string fall through to
the default clause). -/
def conflictClauseOrDefault (onConflictClause : Option String)
    (useOnConflict : Bool) : String :=
  match onConflictClause with
  | some c =>
      if c ≠ "" then c
      else if useOnConflict then " ON CONFLICT (id) DO NOTHING" else ""
  | none => if useOnConflict then " ON CONFLICT (id) DO NOTHING" else ""

/-- Rendering of one value for the SQL file (import_strategies.py lines
164-175): `None` becomes the literal `NULL`, strings are single-quoted
with quotes doubled, datetimes are single-quoted ISO-8601, any other
scalar is its canonical string form. -/
def formatValue : PyValue → String
  | .null => "NULL"
  | .str s => squote.toString ++ escapeSingleQuotes s ++ squote.toString
  | .dt iso => squote.toString ++ iso ++ squote.toString
  | .other r => r

/-- One line of the generated SQL file (import_strategies.py line
177). -/
def sqlFileLine (table : String) (columns : List String)
    (conflictClause : String) (values : PyRow) : String :=
  "INSERT INTO " ++ table ++ " (" ++ String.intercalate ", " columns ++
    ") VALUES (" ++
    String.intercalate ", " (values.map formatValue) ++ ")" ++
    conflictClause ++ ";"

/-- Method `ImportUtils.write_sql_file` (import_strategies.py lines 141-183):
an empty batch or an empty column list returns 0 and writes nothing;
otherwise one INSERT statement is appended per row, the whole batch is
recorded as successes, and the row count is returned.  The result
carries the appended file lines. -/
def ImportUtils.write_sql_file (batch : List PyRow) (columns : List String)
    (table : String) (useOnConflict : Bool)
    (onConflictClause : Option String) (s : EntityStats) :
    Nat × EntityStats × List String :=
  if batch.isEmpty || columns.isEmpty then (0, s, [])
  else
    let clause := conflictClauseOrDefault onConflictClause useOnConflict
    (batch.length, record_success s batch.length,
      batch.map (sqlFileLine table columns clause))

/-- Method `ImportUtils.execute_batch` (import_strategies.py lines 272-283),
with the module constant `DIRECT_IMPORT` as a parameter: direct mode
executes immediately, deferred mode appends to the per-table SQL file.
The result carries the count, the summary, the cursor events (direct
mode) and the file lines (deferred mode). -/
def ImportUtils.execute_batch (directImport importByBatch useOnConflict : Bool)
    (batch : List PyRow) (columns : List String) (table : String)
    (onConflictClause : Option String) (db : DbBehavior) (s : EntityStats) :
    Except (EntityStats × List CursorEvent)
      (Nat × EntityStats × List CursorEvent × List String) :=
  if directImport then
    match ImportUtils.execute_direct_sql importByBatch useOnConflict batch
        columns db s with
    | .ok (n, s1, ev) => .ok (n, s1, ev, [])
    | .error e => .error e
  else
    let r := ImportUtils.write_sql_file batch columns table useOnConflict
      onConflictClause s
    .ok (r.1, r.2.1, [], r.2.2)

/-! ### The schema registry

`src/schemas/table_schemas.py`: `ColumnDefinition` and the `TableSchema`
dataclass with its `get_on_conflict_clause(columns)` method.  The
`import_strategy` field holds a strategy object; the model carries only
its presence as an optional tag. -/

/-- Dataclass `ColumnDefinition` (table_schemas.py lines 4-10). -/
structure ColumnDefinition where
  name : String
  sql_type : String
  nullable : Bool := true
  primary_key : Bool := false
  foreign_key : Option String := none
deriving DecidableEq, Repr

/-- Dataclass `TableSchema` (table_schemas.py lines 12-20).  These are exactly the
fields the dataclass declares. -/
structure TableSchema where
  name : String
  mongo_collection : String
  columns : List ColumnDefinition
  field_mappings : List (String × String)
  export_order : Nat := 0
  import_strategy : Option String := none
  unique_constraints : Option (List (List String)) := none
deriving DecidableEq, Repr

/-- The attribute names the `TableSchema` dataclass declares
(table_schemas.py lines 12-20), in declaration order: attribute access
on an instance succeeds exactly for these. -/
def tableSchemaFieldNames : List String :=
  ["name", "mongo_collection", "columns", "field_mappings",
    "export_order", "import_strategy", "unique_constraints"]

/-- The attribute `run_migration` reads on every schema at
`src/migration/runner.py` line 66. -/
def runnerForceReimportAttr : String := "force_reimport"

/-- The attribute `run_migration` reads at `src/migration/runner.py`
line 68 when the previous one is truthy. -/
def runnerTruncateBeforeImportAttr : String := "truncate_before_import"

/-- The insert-column set of `get_on_conflict_clause` (table_schemas.py
lines 88-94): Python truthiness of the argument means `None` and the
empty list both select all schema columns. -/
def insertColumnsOf (ts : TableSchema) (columns : Option (List String)) :
    List String :=
  match columns with
  | some (c :: cs) => c :: cs
  | _ => ts.columns.map (·.name)

/-- The `update_columns` of the primary-key branch (table_schemas.py
lines 99-103): every non-primary-key schema column present in the
current insert, rendered `col = EXCLUDED.col`, in schema order. -/
def pkUpdateColumns (ts : TableSchema) (columns : Option (List String)) :
    List String :=
  (ts.columns.filter fun c =>
    !c.primary_key && (insertColumnsOf ts columns).contains c.name).map
    (fun c => c.name ++ " = EXCLUDED." ++ c.name)

/-- The `update_columns` of the unique-constraint branch
(table_schemas.py lines 116-121): every schema column outside the
constraint, not a primary key, and present in the current insert. -/
def ucUpdateColumns (ts : TableSchema) (uc0 : List String)
    (columns : Option (List String)) : List String :=
  (ts.columns.filter fun c =>
    !uc0.contains c.name && !c.primary_key &&
      (insertColumnsOf ts columns).contains c.name).map
    (fun c => c.name ++ " = EXCLUDED." ++ c.name)

/-- Method `TableSchema.get_on_conflict_clause(columns)` (table_schemas.py
lines 81-130).  The first branch requires a column literally named `id`
with `primary_key` set; the second uses the first unique constraint;
otherwise the empty string. -/
def TableSchema.get_on_conflict_clause (ts : TableSchema)
    (columns : Option (List String)) : String :=
  match ts.columns.find? (fun c => c.name = "id" && c.primary_key) with
  | some _ =>
      let update_columns := pkUpdateColumns ts columns
      if update_columns.isEmpty then " ON CONFLICT (id) DO NOTHING"
      else " ON CONFLICT (id) DO UPDATE SET " ++
        String.intercalate ", " update_columns
  | none =>
    match ts.unique_constraints with
    | some (uc0 :: _) =>
        let constraint_cols := String.intercalate ", " uc0
        let update_columns := ucUpdateColumns ts uc0 columns
        if update_columns.isEmpty then
          " ON CONFLICT (" ++ constraint_cols ++ ") DO NOTHING"
        else
          " ON CONFLICT (" ++ constraint_cols ++ ") DO UPDATE SET " ++
            String.intercalate ", " update_columns
    | _ => ""

/-- Whether the table has a column literally named `id` that is a
primary key — the condition of the first branch of
`get_on_conflict_clause` (table_schemas.py line 97). -/
def hasIdPkColumn (ts : TableSchema) : Bool :=
  ts.columns.any fun c => c.name = "id" && c.primary_key

/-- The `ingredients` schema from `create_schemas()`
(src/schemas/schemas.py): the base entity columns plus `name`, with the
base explicit mappings; field mappings transcribed as
`TableSchema.create` computes them. -/
def ingredientsSchema : TableSchema where
  name := "ingredients"
  mongo_collection := "ingredients"
  columns :=
    [{ name := "id", sql_type := "VARCHAR", primary_key := true },
     { name := "created_at", sql_type := "TIMESTAMP", nullable := false },
     { name := "updated_at", sql_type := "TIMESTAMP", nullable := false },
     { name := "name", sql_type := "VARCHAR(255)", nullable := false }]
  field_mappings :=
    [("name", "name"), ("_id", "id"), ("creation_date", "created_at"),
     ("update_date", "updated_at")]
  export_order := 1

/-- The `user_events` schema from `create_schemas()`
(src/schemas/schemas.py): no primary-key column, one unique constraint
on `(user_id, event_id)`, a delete-and-insert strategy. -/
def userEventsSchema : TableSchema where
  name := "user_events"
  mongo_collection := "users"
  columns :=
    [{ name := "user_id", sql_type := "VARCHAR", nullable := false,
        foreign_key := some "users(id)" },
     { name := "event_id", sql_type := "VARCHAR", nullable := false,
        foreign_key := some "events(id)" },
     { name := "created_at", sql_type := "TIMESTAMP", nullable := false },
     { name := "updated_at", sql_type := "TIMESTAMP", nullable := false }]
  field_mappings :=
    [("creation_date", "created_at"), ("update_date", "updated_at")]
  export_order := 3
  import_strategy := some "UserEventsStrategy"
  unique_constraints := some [["user_id", "event_id"]]

/-- A well-formed table whose primary-key column is not named `id`:
allowed by the `TableSchema` dataclass, used to probe the claimed
behaviour of `get_on_conflict_clause` for an arbitrary primary key. -/
def pkNotIdSchema : TableSchema where
  name := "sessions"
  mongo_collection := "sessions"
  columns :=
    [{ name := "key", sql_type := "VARCHAR", primary_key := true },
     { name := "note", sql_type := "TEXT" }]
  field_mappings := [("_id", "key"), ("note", "note")]
  export_order := 1

/-! ### The watermark query and the global threshold

`src/migration/data_export.py` lines 10-31 (`get_last_insert_date`) and
`src/migration/runner.py` lines 10-40 (`apply_global_threshold`).
Timestamps are `Nat` on an axis whose origin 0 denotes the epoch
sentinel `1900-01-01 00:00:00`; a target table is a list of
`(created_at, updated_at)` pairs. -/

/-- SQL `MAX(column)` over a table: `NULL` (none) on an empty table. -/
def sqlMax : List Nat → Option Nat
  | [] => none
  | x :: xs =>
      match sqlMax xs with
      | none => some x
      | some m => some (Nat.max x m)

/-- The epoch sentinel `1900-01-01::timestamp` of the watermark query,
the origin of the timestamp axis. -/
def epochSentinel : Nat := 0

/-- The SQL expression issued by `get_last_insert_date`:
`GREATEST(COALESCE(MAX(created_at), epoch), COALESCE(MAX(updated_at),
epoch))` over the table rows. -/
def watermarkQuery (rows : List (Nat × Nat)) : Nat :=
  Nat.max ((sqlMax (rows.map Prod.fst)).getD epochSentinel)
    ((sqlMax (rows.map Prod.snd)).getD epochSentinel)

/-- Function `get_last_insert_date` (data_export.py lines 10-31): runs the
watermark query and maps the epoch sentinel back to `None` so that an
empty table triggers a full import. -/
def get_last_insert_date (rows : List (Nat × Nat)) : Option Nat :=
  let g := watermarkQuery rows
  if g = epochSentinel then none else some g

/-- Function `apply_global_threshold(table_date, global_threshold)`
(runner.py lines 10-40): the watermark when the floor is absent, the
floor when the watermark is absent, otherwise the earlier of the two. -/
def apply_global_threshold (table_date global_threshold : Option Nat) :
    Option Nat :=
  match global_threshold with
  | none => table_date
  | some g =>
      match table_date with
      | none => some g
      | some t => some (Nat.min t g)

/-! ### The delete-and-insert batch step of the main loop

`transfert_data.py` lines 112-204: STEP 3 transforms a batch of
documents into SQL rows while collecting parent identifiers for
strategies that expose `get_parent_id_from_document`; STEP 4 first
issues `DELETE FROM table WHERE column IN (parent_ids)` when the
strategy exposes `get_delete_column_name` and parent ids were collected,
then inserts the fresh rows through `execute_batch`.  The SQL statements
are modelled as operations on a list-of-rows table state. -/

/-- A statement issued by STEP 4. -/
inductive SqlOp where
  | deleteWhereIn (table column : String) (ids : List String)
  | insertInto (table : String) (columns : List String) (rows : List PyRow)
deriving DecidableEq, Repr

/-- A stored target row: column name to value. -/
abbrev DbRow := List (String × PyValue)

/-- The value a stored row holds in a column, if any. -/
def rowValue (r : DbRow) (col : String) : Option PyValue :=
  (r.find? fun p => p.1 = col).map (·.2)

/-- Whether `column IN (ids)` holds of a stored row: SQL three-valued
logic never selects a row whose column is NULL or not a string id. -/
def rowMatchesIn (r : DbRow) (col : String) (ids : List String) : Bool :=
  match rowValue r col with
  | some (.str v) => ids.contains v
  | _ => false

/-- Semantics of one statement on the target table state. -/
def applySqlOp (state : List DbRow) : SqlOp → List DbRow
  | .deleteWhereIn _ col ids => state.filter fun r => !rowMatchesIn r col ids
  | .insertInto _ cols rows => state ++ rows.map fun vs => cols.zip vs

/-- Sequential execution of the statements of a batch. -/
def applySqlOps (state : List DbRow) (ops : List SqlOp) : List DbRow :=
  ops.foldl applySqlOp state

/-- A value `extract_data_for_sql` returns for one document: a list of
rows (multi-row shape) or a single flat row. -/
abbrev ExtractValues := List PyRow ⊕ PyRow

/-- Lines 129-133 of transfert_data.py: a non-empty list whose first
element is a list is extended into the batch; anything else — including
an empty list of rows — is appended as a single row. -/
def pyAppendValues (acc : List PyRow) : ExtractValues → List PyRow
  | .inl [] => acc ++ [[]]
  | .inl (r :: rs) => acc ++ (r :: rs)
  | .inr r => acc ++ [r]

/-- STEP 3 of the main loop (transfert_data.py lines 112-133) over one
batch of documents: builds `all_batch_values` and, when the strategy
exposes `get_parent_id_from_document`, `parent_ids_for_deletion`,
skipping documents whose extraction returned `None`. -/
def collectStep3 {α : Type} (docs : List α)
    (extract : α → Option ExtractValues) (hasParentId : Bool)
    (getParentId : α → String) : List PyRow × List String :=
  docs.foldl
    (fun acc doc =>
      match extract doc with
      | none => acc
      | some v =>
          (pyAppendValues acc.1 v,
            if hasParentId then acc.2 ++ [getParentId doc] else acc.2))
    ([], [])

/-- STEP 4 of the main loop (transfert_data.py lines 153-201): the
DELETE by collected parent ids, guarded by the strategy exposing
`get_delete_column_name` and by a non-empty id list, followed by the
batch INSERT. -/
def step4Ops (hasDeleteStrategy : Bool) (deleteTable deleteColumn : String)
    (parentIds : List String) (tableName : String) (columns : List String)
    (batchValues : List PyRow) : List SqlOp :=
  (if hasDeleteStrategy && !parentIds.isEmpty then
    [SqlOp.deleteWhereIn deleteTable deleteColumn parentIds]
  else []) ++ [SqlOp.insertInto tableName columns batchValues]

/-- One iteration of the batch loop, STEP 3 followed by STEP 4; when the
batch transformed to no rows the loop continues without touching the
database (line 135). -/
def migrationBatchStep {α : Type} (docs : List α)
    (extract : α → Option ExtractValues)
    (hasDeleteStrategy hasParentId : Bool) (getParentId : α → String)
    (deleteTable deleteColumn tableName : String)
    (columns : List String) : List SqlOp :=
  let c := collectStep3 docs extract hasParentId getParentId
  if c.1.isEmpty then []
  else step4Ops hasDeleteStrategy deleteTable deleteColumn c.2 tableName
    columns c.1

/-! ### Auxiliary counting functions and facts used by the theorems -/

/-- The list of indices `[i, i+1, ..., i+n-1]`. -/
def idxList : Nat → Nat → List Nat
  | _, 0 => []
  | i, n + 1 => i :: idxList (i + 1) n

/-- How many of the `n` row outcomes starting at index `i` are
successes. -/
def okCountFrom (ro : Nat → RowOutcome) : Nat → Nat → Nat
  | _, 0 => 0
  | i, n + 1 => (if ro i = .ok then 1 else 0) + okCountFrom ro (i + 1) n

/-- The summary reasons produced by the `n` row outcomes starting at
index `i`, in order. -/
def reasonsFrom (ro : Nat → RowOutcome) : Nat → Nat → List String
  | _, 0 => []
  | i, n + 1 =>
      (match recordedReason (ro i) with
        | some r => [r]
        | none => []) ++ reasonsFrom ro (i + 1) n

/-- Occurrences of one reason in a reason list. -/
def reasonCount (r : String) : List String → Nat
  | [] => 0
  | x :: t => (if x = r then 1 else 0) + reasonCount r t

/-- Event predicate: any `SAVEPOINT` statement. -/
def isSavepointEv : CursorEvent → Bool
  | .savepoint _ => true
  | _ => false

/-- Event predicate: the execution of one row's insert. -/
def isExecuteRowEv : CursorEvent → Bool
  | .executeRow _ => true
  | _ => false

theorem badCount_bump (l : List (String × Nat)) (r0 r : String) :
    badCount (bumpReason l r0) r =
      badCount l r + (if r0 = r then 1 else 0) := by
  induction l with
  | nil => by_cases h : r0 = r <;> simp [bumpReason, badCount, h]
  | cons p t ih =>
      obtain ⟨k, v⟩ := p
      by_cases hk : k = r0
      · subst hk
        by_cases h : k = r <;> simp [bumpReason, badCount, h] <;> omega
      · simp only [bumpReason, if_neg hk, badCount]
        rw [ih]
        omega

theorem badTotal_bump (l : List (String × Nat)) (r0 : String) :
    badTotal (bumpReason l r0) = badTotal l + 1 := by
  induction l with
  | nil => simp [bumpReason, badTotal]
  | cons p t ih =>
      obtain ⟨k, v⟩ := p
      by_cases hk : k = r0 <;> simp [bumpReason, hk, badTotal] <;> omega

theorem record_error_failed_le (s : EntityStats) (r : String) (id : PyValue) :
    Nat.max (record_error s r id).failed_records.length max_failed_records ≤
      Nat.max s.failed_records.length max_failed_records := by
  simp only [record_error, max_failed_records]
  split <;> simp_all <;> omega

@[simp] theorem record_success_good (s : EntityStats) (n : Nat) :
    (record_success s n).good = s.good + n := rfl

@[simp] theorem record_success_bad (s : EntityStats) (n : Nat) :
    (record_success s n).bad = s.bad := rfl

@[simp] theorem record_success_skipped (s : EntityStats) (n : Nat) :
    (record_success s n).skipped = s.skipped := rfl

@[simp] theorem record_success_failed (s : EntityStats) (n : Nat) :
    (record_success s n).failed_records = s.failed_records := rfl

@[simp] theorem record_skipped_good (s : EntityStats) (n : Nat) :
    (record_skipped s n).good = s.good := rfl

@[simp] theorem record_skipped_bad (s : EntityStats) (n : Nat) :
    (record_skipped s n).bad = s.bad := rfl

@[simp] theorem record_skipped_skipped (s : EntityStats) (n : Nat) :
    (record_skipped s n).skipped = s.skipped + n := rfl

@[simp] theorem record_skipped_failed (s : EntityStats) (n : Nat) :
    (record_skipped s n).failed_records = s.failed_records := rfl

@[simp] theorem record_error_good (s : EntityStats) (r : String) (id : PyValue) :
    (record_error s r id).good = s.good := rfl

@[simp] theorem record_error_skipped (s : EntityStats) (r : String)
    (id : PyValue) : (record_error s r id).skipped = s.skipped := rfl

@[simp] theorem record_error_bad (s : EntityStats) (r : String) (id : PyValue) :
    (record_error s r id).bad = bumpReason s.bad r := rfl

theorem okCount_reasons_length (ro : Nat → RowOutcome) :
    ∀ (n i : Nat),
      okCountFrom ro i n + (reasonsFrom ro i n).length = n := by
  intro n
  induction n with
  | zero => intro i; simp [okCountFrom, reasonsFrom]
  | succ m ih =>
      intro i
      have hih := ih (i + 1)
      cases h : ro i <;>
        simp [okCountFrom, reasonsFrom, h, recordedReason] <;>
        omega

/-- The combined bookkeeping facts of the per-row retry loop, proved at
once by induction on the remaining rows: the returned count is the
number of successful rows; `good` grows by exactly that; `skipped` is
untouched; each reason counter grows by the number of rows classified
under that reason; the total of the bad counters grows by the number of
failed rows; the sample list stays bounded; a savepoint is opened for
every row; and every row index is executed, in order. -/
theorem retryRows_spec (ro : Nat → RowOutcome) (rows : List PyRow) :
    ∀ (i : Nat) (s : EntityStats),
      (retryRows ro i rows s).1 = okCountFrom ro i rows.length
      ∧ (retryRows ro i rows s).2.1.good =
          s.good + okCountFrom ro i rows.length
      ∧ (retryRows ro i rows s).2.1.skipped = s.skipped
      ∧ (∀ r : String, badCount (retryRows ro i rows s).2.1.bad r =
          badCount s.bad r + reasonCount r (reasonsFrom ro i rows.length))
      ∧ badTotal (retryRows ro i rows s).2.1.bad =
          badTotal s.bad + (reasonsFrom ro i rows.length).length
      ∧ Nat.max (retryRows ro i rows s).2.1.failed_records.length
            max_failed_records ≤
          Nat.max s.failed_records.length max_failed_records
      ∧ (retryRows ro i rows s).2.2.filter isSavepointEv =
          List.replicate rows.length (.savepoint "individual_retry")
      ∧ (retryRows ro i rows s).2.2.filter isExecuteRowEv =
          (idxList i rows.length).map CursorEvent.executeRow := by
  induction rows with
  | nil =>
      intro i s
      simp [retryRows, okCountFrom, reasonsFrom, reasonCount, idxList]
  | cons v rest ih =>
      intro i s
      cases h : ro i with
      | ok =>
          obtain ⟨h1, h2, h3, h4, h5, h6, h7, h8⟩ :=
            ih (i + 1) (record_success s 1)
          simp only [record_success_good, record_success_bad,
            record_success_skipped, record_success_failed] at h2 h3 h4 h5 h6
          refine ⟨?_, ?_, ?_, ?_, ?_, ?_, ?_, ?_⟩
          · simp only [retryRows, h, okCountFrom]
            simp; omega
          · simp only [retryRows, h, okCountFrom]
            simp; omega
          · simp only [retryRows, h]
            exact h3
          · intro r
            have h4r := h4 r
            simp only [retryRows, h, reasonsFrom, recordedReason,
              List.nil_append]
            omega
          · simp only [retryRows, h, reasonsFrom, recordedReason,
              List.nil_append]
            exact h5
          · simp only [retryRows, h]
            exact h6
          · simp only [retryRows, h, List.length_cons, List.replicate_succ]
            simp [List.filter_cons, isSavepointEv, h7]
          · simp only [retryRows, h, List.length_cons, idxList, List.map_cons]
            simp [List.filter_cons, isExecuteRowEv, h8]
      | integrityError msg =>
          obtain ⟨h1, h2, h3, h4, h5, h6, h7, h8⟩ :=
            ih (i + 1)
              (record_error s (classifyIntegrityError msg)
                (failedRecordId v))
          simp only [record_error_good, record_error_bad,
            record_error_skipped] at h2 h3 h4 h5
          refine ⟨?_, ?_, ?_, ?_, ?_, ?_, ?_, ?_⟩
          · simp only [retryRows, h, okCountFrom]
            simp; omega
          · simp only [retryRows, h, okCountFrom]
            simp; omega
          · simp only [retryRows, h]
            exact h3
          · intro r
            have h4r := h4 r
            rw [badCount_bump] at h4r
            simp only [retryRows, h, reasonsFrom, recordedReason,
              reasonCount, List.singleton_append]
            omega
          · have h5b := h5
            rw [badTotal_bump] at h5b
            simp only [retryRows, h, reasonsFrom, recordedReason,
              List.singleton_append, List.length_cons]
            omega
          · refine le_trans ?_ (record_error_failed_le s
              (classifyIntegrityError msg) (failedRecordId v))
            simp only [retryRows, h]
            exact h6
          · simp only [retryRows, h, List.length_cons, List.replicate_succ]
            simp [List.filter_cons, isSavepointEv, h7]
          · simp only [retryRows, h, List.length_cons, idxList, List.map_cons]
            simp [List.filter_cons, isExecuteRowEv, h8]
      | unexpected msg =>
          obtain ⟨h1, h2, h3, h4, h5, h6, h7, h8⟩ :=
            ih (i + 1)
              (record_error s ("Unexpected error: " ++ pyTake 100 msg)
                (failedRecordId v))
          simp only [record_error_good, record_error_bad,
            record_error_skipped] at h2 h3 h4 h5
          refine ⟨?_, ?_, ?_, ?_, ?_, ?_, ?_, ?_⟩
          · simp only [retryRows, h, okCountFrom]
            simp; omega
          · simp only [retryRows, h, okCountFrom]
            simp; omega
          · simp only [retryRows, h]
            exact h3
          · intro r
            have h4r := h4 r
            rw [badCount_bump] at h4r
            simp only [retryRows, h, reasonsFrom, recordedReason,
              reasonCount, List.singleton_append]
            omega
          · have h5b := h5
            rw [badTotal_bump] at h5b
            simp only [retryRows, h, reasonsFrom, recordedReason,
              List.singleton_append, List.length_cons]
            omega
          · refine le_trans ?_ (record_error_failed_le s
              ("Unexpected error: " ++ pyTake 100 msg) (failedRecordId v))
            simp only [retryRows, h]
            exact h6
          · simp only [retryRows, h, List.length_cons, List.replicate_succ]
            simp [List.filter_cons, isSavepointEv, h7]
          · simp only [retryRows, h, List.length_cons, idxList, List.map_cons]
            simp [List.filter_cons, isExecuteRowEv, h8]

theorem individualInserts_ok_spec (ro : Nat → RowOutcome)
    (rows : List PyRow) :
    ∀ (i : Nat) (s : EntityStats) (c : Nat) (s2 : EntityStats)
      (ev : List CursorEvent),
      individualInserts ro i rows s = .ok (c, s2, ev) →
      s2.good + s2.skipped + badTotal s2.bad =
        s.good + s.skipped + badTotal s.bad + rows.length := by
  induction rows with
  | nil =>
      intro i s c s2 ev h
      simp only [individualInserts, Except.ok.injEq, Prod.mk.injEq] at h
      obtain ⟨-, h2, -⟩ := h
      rw [← h2]
      simp
  | cons v rest ih =>
      intro i s c s2 ev h
      cases h0 : ro i with
      | ok =>
          simp only [individualInserts, h0] at h
          cases hrec : individualInserts ro (i + 1) rest
              (record_success s 1) with
          | ok p =>
              obtain ⟨c0, s0, ev0⟩ := p
              rw [hrec] at h
              simp only [Except.ok.injEq, Prod.mk.injEq] at h
              obtain ⟨-, h2, -⟩ := h
              have hih := ih (i + 1) (record_success s 1) c0 s0 ev0 hrec
              simp only [record_success_good, record_success_bad,
                record_success_skipped] at hih
              rw [← h2]
              simp only [List.length_cons]
              omega
          | error e =>
              rw [hrec] at h
              simp at h
      | integrityError msg =>
          simp only [individualInserts, h0] at h
          cases hrec : individualInserts ro (i + 1) rest
              (record_error s (classifyIntegrityError msg)
                (failedRecordId v)) with
          | ok p =>
              obtain ⟨c0, s0, ev0⟩ := p
              rw [hrec] at h
              simp only [Except.ok.injEq, Prod.mk.injEq] at h
              obtain ⟨-, h2, -⟩ := h
              have hih := ih (i + 1) _ c0 s0 ev0 hrec
              simp only [record_error_good, record_error_bad,
                record_error_skipped] at hih
              rw [badTotal_bump] at hih
              rw [← h2]
              simp only [List.length_cons]
              omega
          | error e =>
              rw [hrec] at h
              simp at h
      | unexpected msg =>
          simp only [individualInserts, h0] at h
          simp at h

/-- Claim C9: in direct mode every `execute_direct_sql` call that
returns normally accounts for each attempted row exactly once: the
`good` counter, the `skipped` counter and the per-reason `bad` counters
together grow by exactly the batch length, in batch mode as well as in
row-at-a-time mode.  The hypothesis on the reported row count reflects
that an INSERT cannot report more affected rows than it was given. -/
theorem C9_accounting_identity (importByBatch useOnConflict : Bool)
    (batch : List PyRow) (columns : List String) (db : DbBehavior)
    (s : EntityStats)
    (hn : ∀ n, db.batchOutcome = .ok n → n ≤ batch.length)
    (hc : columns ≠ []) (cnt : Nat) (s2 : EntityStats)
    (ev : List CursorEvent)
    (hok : ImportUtils.execute_direct_sql importByBatch useOnConflict batch
      columns db s = .ok (cnt, s2, ev)) :
    s2.good + s2.skipped + badTotal s2.bad =
      s.good + s.skipped + badTotal s.bad + batch.length := by
  have hce : columns.isEmpty = false := by
    cases columns with
    | nil => exact absurd rfl hc
    | cons a l => rfl
  cases batch with
  | nil =>
      simp only [ImportUtils.execute_direct_sql, List.isEmpty_nil,
        Bool.true_or, if_true, Except.ok.injEq, Prod.mk.injEq] at hok
      obtain ⟨-, h2, -⟩ := hok
      rw [← h2]
      simp
  | cons b bs =>
      have hgd : ((b :: bs).isEmpty || columns.isEmpty) = false := by
        simp [hce]
      cases importByBatch with
      | false =>
          simp only [ImportUtils.execute_direct_sql, hgd, Bool.false_eq_true,
            if_false, if_neg] at hok
          exact individualInserts_ok_spec db.rowOutcome (b :: bs) 0 s cnt s2
            ev hok
      | true =>
          cases hbo : db.batchOutcome with
          | ok n =>
              have hn' : n ≤ (b :: bs).length := hn n hbo
              simp only [ImportUtils.execute_direct_sql, hgd,
                Bool.false_eq_true, if_false, if_true, hbo] at hok
              by_cases hcond : useOnConflict = false ∧ n ≠ (b :: bs).length
              · rw [if_pos hcond] at hok
                simp only [handleBatchErrors, Except.ok.injEq,
                  Prod.mk.injEq] at hok
                obtain ⟨-, h2, -⟩ := hok
                obtain ⟨g1, g2, g3, g4, g5, g6, g7, g8⟩ :=
                  retryRows_spec db.rowOutcome (b :: bs) 0 s
                have hlen := okCount_reasons_length db.rowOutcome
                  (b :: bs).length 0
                rw [← h2]
                omega
              · rw [if_neg hcond] at hok
                by_cases hk : (b :: bs).length - n > 0
                · rw [if_pos hk] at hok
                  simp only [Except.ok.injEq, Prod.mk.injEq] at hok
                  obtain ⟨-, h2, -⟩ := hok
                  rw [← h2]
                  simp only [record_skipped_good, record_skipped_bad,
                    record_skipped_skipped, record_success_good,
                    record_success_bad, record_success_skipped]
                  omega
                · rw [if_neg hk] at hok
                  simp only [Except.ok.injEq, Prod.mk.injEq] at hok
                  obtain ⟨-, h2, -⟩ := hok
                  rw [← h2]
                  simp only [record_success_good, record_success_bad,
                    record_success_skipped]
                  omega
          | integrityError =>
              simp only [ImportUtils.execute_direct_sql, hgd,
                Bool.false_eq_true, if_false, if_true, hbo,
                handleBatchErrors, Except.ok.injEq, Prod.mk.injEq] at hok
              obtain ⟨-, h2, -⟩ := hok
              obtain ⟨g1, g2, g3, g4, g5, g6, g7, g8⟩ :=
                retryRows_spec db.rowOutcome (b :: bs) 0 s
              have hlen := okCount_reasons_length db.rowOutcome
                (b :: bs).length 0
              rw [← h2]
              omega
          | fatalError =>
              simp only [ImportUtils.execute_direct_sql, hgd,
                Bool.false_eq_true, if_false, if_true, hbo] at hok
              cases hok

/-- The all-zero summary entry, used as a concrete starting state. -/
def statsZero : EntityStats := {}

/-- An engine that reports one affected row for the batched statement
and succeeds on every individual insert. -/
def dbUpsertOne : DbBehavior := ⟨.ok 1, fun _ => .ok⟩

/-- An engine whose batched statement raises an integrity error and
whose every individual insert raises an unclassified integrity error. -/
def dbIntegrityFail : DbBehavior :=
  ⟨.integrityError, fun _ => .integrityError "broken constraint xyz"⟩

theorem C9_accounting_identity_witness :
    (∀ n, dbUpsertOne.batchOutcome = .ok n → n ≤ 2)
    ∧ (["id"] : List String) ≠ []
    ∧ ImportUtils.execute_direct_sql true true
        [[PyValue.str "a"], [PyValue.str "b"]] ["id"] dbUpsertOne statsZero =
      .ok (1, { good := 1, skipped := 1 },
        [.savepoint "batch_insert", .executemany,
          .releaseSavepoint "batch_insert", .commit])
    ∧ ({ good := 1, skipped := 1 } : EntityStats).good +
        ({ good := 1, skipped := 1 } : EntityStats).skipped +
        badTotal ({ good := 1, skipped := 1 } : EntityStats).bad =
      statsZero.good + statsZero.skipped + badTotal statsZero.bad + 2 := by
  refine ⟨?_, by decide, rfl, ?_⟩
  · intro n h
    simp only [dbUpsertOne, BatchOutcome.ok.injEq] at h
    subst h
    decide
  · exact C9_accounting_identity true true
      [[PyValue.str "a"], [PyValue.str "b"]] ["id"] dbUpsertOne statsZero
      (by intro n h
          simp only [dbUpsertOne, BatchOutcome.ok.injEq] at h
          subst h
          decide)
      (by decide) 1 { good := 1, skipped := 1 }
      [.savepoint "batch_insert", .executemany,
        .releaseSavepoint "batch_insert", .commit] rfl

/-- Claim C3: in direct batch mode, a `batch_insert` savepoint is opened
and `executemany` runs; a successful statement without an upsert clause
whose reported row count differs from the batch length rolls back to
the savepoint and falls through to the per-row retry; a successful
statement under an upsert clause is accepted with the row count as the
result and the shortfall versus the batch length recorded as skipped;
an integrity error rolls back to the savepoint and enters the per-row
retry. -/
theorem C3_execute_direct_sql_batch (useOnConflict : Bool)
    (batch : List PyRow) (columns : List String) (db : DbBehavior)
    (s : EntityStats) (hb : batch ≠ []) (hc : columns ≠ []) :
    (∀ n, db.batchOutcome = .ok n → useOnConflict = false →
      n ≠ batch.length →
      ImportUtils.execute_direct_sql true useOnConflict batch columns db s =
        .ok ((handleBatchErrors batch db.rowOutcome s).1,
          (handleBatchErrors batch db.rowOutcome s).2.1,
          [.savepoint "batch_insert", .executemany,
            .rollbackToSavepoint "batch_insert"] ++
            (handleBatchErrors batch db.rowOutcome s).2.2))
    ∧ (∀ n, db.batchOutcome = .ok n → useOnConflict = true →
        ∃ s2 : EntityStats,
          ImportUtils.execute_direct_sql true useOnConflict batch columns
              db s =
            .ok (n, s2,
              [.savepoint "batch_insert", .executemany,
                .releaseSavepoint "batch_insert", .commit])
          ∧ s2.good = s.good + n
          ∧ s2.skipped = s.skipped + (batch.length - n)
          ∧ s2.bad = s.bad)
    ∧ (db.batchOutcome = .integrityError →
        ImportUtils.execute_direct_sql true useOnConflict batch columns
            db s =
          .ok ((handleBatchErrors batch db.rowOutcome s).1,
            (handleBatchErrors batch db.rowOutcome s).2.1,
            [.savepoint "batch_insert", .executemany,
              .rollbackToSavepoint "batch_insert"] ++
              (handleBatchErrors batch db.rowOutcome s).2.2)) := by
  have hbe : batch.isEmpty = false := by
    cases batch with
    | nil => exact absurd rfl hb
    | cons a l => rfl
  have hce : columns.isEmpty = false := by
    cases columns with
    | nil => exact absurd rfl hc
    | cons a l => rfl
  have hgd : (batch.isEmpty || columns.isEmpty) = false := by
    simp [hbe, hce]
  refine ⟨?_, ?_, ?_⟩
  · intro n hbo huoc hne
    subst huoc
    simp only [ImportUtils.execute_direct_sql, hgd, Bool.false_eq_true,
      if_false, if_true, hbo]
    rw [if_pos ⟨trivial, hne⟩]
  · intro n hbo huoc
    subst huoc
    simp only [ImportUtils.execute_direct_sql, hgd, Bool.false_eq_true,
      if_false, if_true, hbo]
    have hcond : ¬(true = false ∧ n ≠ batch.length) := by simp
    rw [if_neg hcond]
    by_cases hk : batch.length - n > 0
    · rw [if_pos hk]
      exact ⟨record_skipped (record_success s n) (batch.length - n), rfl,
        by simp, by simp, by simp⟩
    · rw [if_neg hk]
      refine ⟨record_success s n, rfl, by simp, ?_, by simp⟩
      simp only [record_success_skipped]
      omega
  · intro hbo
    simp only [ImportUtils.execute_direct_sql, hgd, Bool.false_eq_true,
      if_false, if_true, hbo]

theorem C3_execute_direct_sql_batch_witness :
    ([[PyValue.str "x"]] : List PyRow) ≠ []
    ∧ (["id"] : List String) ≠ []
    ∧ dbIntegrityFail.batchOutcome = .integrityError
    ∧ ImportUtils.execute_direct_sql true true [[PyValue.str "x"]] ["id"]
        dbIntegrityFail statsZero =
      .ok (0,
        { bad := [("Other integrity error: broken constraint xyz", 1)],
          failed_records :=
            [("Other integrity error: broken constraint xyz",
              PyValue.str "x")] },
        [.savepoint "batch_insert", .executemany,
          .rollbackToSavepoint "batch_insert",
          .savepoint "individual_retry", .executeRow 0,
          .rollbackToSavepoint "individual_retry", .commit]) := by
  refine ⟨by decide, by decide, rfl, ?_⟩
  have h := (C3_execute_direct_sql_batch true [[PyValue.str "x"]] ["id"]
    dbIntegrityFail statsZero (by decide) (by decide)).2.2 rfl
  exact h.trans (by rfl)

theorem chListPrefix_map (f : Char → Char) :
    ∀ (a b : List Char), chListPrefix a b = true →
      chListPrefix (a.map f) (b.map f) = true := by
  intro a
  induction a with
  | nil => intro b _; simp [chListPrefix]
  | cons x xs ih =>
      intro b h
      cases b with
      | nil => simp [chListPrefix] at h
      | cons y ys =>
          simp only [chListPrefix, Bool.and_eq_true, decide_eq_true_eq]
            at h
          simp only [List.map_cons, chListPrefix, Bool.and_eq_true,
            decide_eq_true_eq]
          exact ⟨by rw [h.1], ih ys h.2⟩

theorem chListContains_map (f : Char → Char) :
    ∀ (hs nd : List Char), chListContains nd hs = true →
      chListContains (nd.map f) (hs.map f) = true := by
  intro hs
  induction hs with
  | nil =>
      intro nd h
      simp only [chListContains, List.isEmpty_iff] at h
      simp [chListContains, h]
  | cons c rest ih =>
      intro nd h
      simp only [chListContains, Bool.or_eq_true] at h
      rcases h with h | h
      · have := chListPrefix_map f nd (c :: rest) h
        simp only [List.map_cons] at this ⊢
        simp [chListContains, this]
      · simp only [List.map_cons, chListContains, Bool.or_eq_true]
        exact Or.inr (ih nd h)

/-- Substring containment survives lowercasing when the needle is
already lowercase: used to connect the raw engine message of the claim
to the lowercased matching the code performs. -/
theorem pyContains_pyLower (msg pat : String) (hpat : pyLower pat = pat)
    (h : pyContains msg pat = true) :
    pyContains (pyLower msg) pat = true := by
  have hd : pat.data.map Char.toLower = pat.data :=
    congrArg String.data hpat
  have := chListContains_map Char.toLower msg.data pat.data h
  rw [hd] at this
  exact this

/-- Claim C4: during the per-row retry every row gets its own
`individual_retry` savepoint and is attempted, in order; the loop runs
to the end and commits — a per-row integrity error never aborts the
table.  Integrity failures are classified by message content (foreign
key, then null, then a reason carrying the first 100 characters of the
engine message), each failed row is recorded exactly once under its
classified reason while `good` counts only the successful rows, and the
sample of failing rows never grows beyond its bound. -/
theorem C4_per_row_retry_classification (batch : List PyRow)
    (ro : Nat → RowOutcome) (s : EntityStats) :
    (handleBatchErrors batch ro s).2.2.filter isSavepointEv =
        List.replicate batch.length (.savepoint "individual_retry")
    ∧ (handleBatchErrors batch ro s).2.2.filter isExecuteRowEv =
        (idxList 0 batch.length).map CursorEvent.executeRow
    ∧ (handleBatchErrors batch ro s).2.2.getLast? = some .commit
    ∧ (∀ msg, pyContains msg "foreign key constraint" = true →
        classifyIntegrityError msg = "Foreign key constraint")
    ∧ (∀ msg, pyContains (pyLower msg) "foreign key constraint" = false →
        (pyContains msg "null value" = true ∨
          pyContains msg "not-null constraint" = true) →
        classifyIntegrityError msg = "NULL constraint")
    ∧ (∀ msg, pyContains (pyLower msg) "foreign key constraint" = false →
        pyContains (pyLower msg) "null value" = false →
        pyContains (pyLower msg) "not-null constraint" = false →
        classifyIntegrityError msg =
          "Other integrity error: " ++ pyTake 100 msg)
    ∧ (∀ i msg, ro i = .integrityError msg →
        recordedReason (ro i) = some (classifyIntegrityError msg))
    ∧ (∀ r, badCount (handleBatchErrors batch ro s).2.1.bad r =
        badCount s.bad r + reasonCount r (reasonsFrom ro 0 batch.length))
    ∧ (handleBatchErrors batch ro s).2.1.good =
        s.good + okCountFrom ro 0 batch.length
    ∧ (handleBatchErrors batch ro s).2.1.skipped = s.skipped
    ∧ (handleBatchErrors batch ro s).2.1.failed_records.length ≤
        Nat.max s.failed_records.length max_failed_records := by
  obtain ⟨g1, g2, g3, g4, g5, g6, g7, g8⟩ := retryRows_spec ro batch 0 s
  refine ⟨?_, ?_, ?_, ?_, ?_, ?_, ?_, ?_, ?_, ?_, ?_⟩
  · simp only [handleBatchErrors, List.filter_append, g7]
    simp [isSavepointEv]
  · simp only [handleBatchErrors, List.filter_append, g8]
    simp [isExecuteRowEv]
  · simp only [handleBatchErrors]
    exact List.getLast?_concat _
  · intro msg h
    have hfk : pyContains (pyLower msg) "foreign key constraint" = true :=
      pyContains_pyLower msg _ (by decide) h
    simp [classifyIntegrityError, hfk]
  · intro msg hfk hnv
    have hl : pyContains (pyLower msg) "null value" = true ∨
        pyContains (pyLower msg) "not-null constraint" = true := by
      rcases hnv with h | h
      · exact Or.inl (pyContains_pyLower msg _ (by decide) h)
      · exact Or.inr (pyContains_pyLower msg _ (by decide) h)
    rcases hl with h | h <;> simp [classifyIntegrityError, hfk, h]
  · intro msg h1 h2 h3
    simp [classifyIntegrityError, h1, h2, h3]
  · intro i msg h
    simp [recordedReason, h]
  · intro r
    simpa only [handleBatchErrors] using g4 r
  · simpa only [handleBatchErrors] using g2
  · simpa only [handleBatchErrors] using g3
  · simp only [handleBatchErrors]
    exact le_trans (Nat.le_max_left _ _) g6

/-- The engine message used by the per-row retry witness. -/
def fkMsg : String :=
  "insert or update on table appointments violates foreign key constraint appointments_fk"

/-- Row outcomes for the per-row retry witness: the first row violates a
foreign key, the second succeeds. -/
def roW : Nat → RowOutcome :=
  fun i => if i = 0 then .integrityError fkMsg else .ok

/-- The two-row batch of the per-row retry witness. -/
def batchW : List PyRow := [[.str "r1"], [.str "r2"]]

theorem C4_per_row_retry_classification_witness :
    pyContains fkMsg "foreign key constraint" = true
    ∧ classifyIntegrityError fkMsg = "Foreign key constraint"
    ∧ (handleBatchErrors batchW roW statsZero).2.1.good =
        statsZero.good + okCountFrom roW 0 batchW.length
    ∧ (handleBatchErrors batchW roW statsZero).2.1.failed_records.length ≤
        Nat.max statsZero.failed_records.length max_failed_records := by
  refine ⟨by decide, ?_, ?_, ?_⟩
  · exact (C4_per_row_retry_classification batchW roW statsZero).2.2.2.1
      fkMsg (by decide)
  · exact (C4_per_row_retry_classification batchW roW
      statsZero).2.2.2.2.2.2.2.2.1
  · exact (C4_per_row_retry_classification batchW roW
      statsZero).2.2.2.2.2.2.2.2.2.2

/-- Claim C10: an `execute_batch` call with an empty row list or an
empty column list returns 0 in both direct and deferred mode, issues no
SQL statement, writes no file line, and leaves the summary counters
untouched. -/
theorem C10_empty_input_guard (directImport importByBatch useOnConflict : Bool)
    (batch : List PyRow) (columns : List String) (table : String)
    (onConflictClause : Option String) (db : DbBehavior) (s : EntityStats)
    (h : batch = [] ∨ columns = []) :
    ImportUtils.execute_batch directImport importByBatch useOnConflict batch
      columns table onConflictClause db s = .ok (0, s, [], []) := by
  have hg : (batch.isEmpty || columns.isEmpty) = true := by
    rcases h with h | h <;> subst h <;> simp
  cases directImport <;>
    simp [ImportUtils.execute_batch, ImportUtils.execute_direct_sql,
      ImportUtils.write_sql_file, hg]

theorem C10_empty_input_guard_witness :
    (([] : List PyRow) = [] ∨ (["id"] : List String) = [])
    ∧ ImportUtils.execute_batch true true false [] ["id"] "users" none
        dbUpsertOne statsZero = .ok (0, statsZero, [], []) :=
  ⟨Or.inl rfl,
    C10_empty_input_guard true true false [] ["id"] "users" none dbUpsertOne
      statsZero (Or.inl rfl)⟩

/-- Statement predicate: a DELETE issued by STEP 4. -/
def isDeleteOp : SqlOp → Bool
  | .deleteWhereIn .. => true
  | _ => false

/-- Statement predicate: an INSERT issued by STEP 4. -/
def isInsertOp : SqlOp → Bool
  | .insertInto .. => true
  | _ => false

/-- Claim C2: in a delete-and-insert batch the emitted statements are
exactly the DELETE over the collected parent identifiers followed by
the INSERT of the fresh rows — every DELETE strictly precedes every
INSERT — and the DELETE semantics preserve every stored row whose
parent-column value does not match a collected parent identifier. -/
theorem C2_delete_precedes_insert_and_scoped {α : Type} (docs : List α)
    (extract : α → Option ExtractValues) (getParentId : α → String)
    (deleteTable deleteColumn tableName : String) (columns : List String)
    (hbv : (collectStep3 docs extract true getParentId).1 ≠ [])
    (hp : (collectStep3 docs extract true getParentId).2 ≠ []) :
    migrationBatchStep docs extract true true getParentId deleteTable
        deleteColumn tableName columns =
      [SqlOp.deleteWhereIn deleteTable deleteColumn
          (collectStep3 docs extract true getParentId).2,
        SqlOp.insertInto tableName columns
          (collectStep3 docs extract true getParentId).1]
    ∧ (∀ (i j : Nat) (op1 op2 : SqlOp),
        (migrationBatchStep docs extract true true getParentId deleteTable
          deleteColumn tableName columns)[i]? = some op1 →
        (migrationBatchStep docs extract true true getParentId deleteTable
          deleteColumn tableName columns)[j]? = some op2 →
        isDeleteOp op1 = true → isInsertOp op2 = true → i < j)
    ∧ (∀ (state : List DbRow) (r : DbRow), r ∈ state →
        rowMatchesIn r deleteColumn
            (collectStep3 docs extract true getParentId).2 = false →
        r ∈ applySqlOps state
          (migrationBatchStep docs extract true true getParentId deleteTable
            deleteColumn tableName columns)) := by
  have hbv' : (collectStep3 docs extract true getParentId).1.isEmpty =
      false := by
    cases hcc : (collectStep3 docs extract true getParentId).1 with
    | nil => exact absurd hcc hbv
    | cons x xs => rfl
  have hp' : (collectStep3 docs extract true getParentId).2.isEmpty =
      false := by
    cases hcc : (collectStep3 docs extract true getParentId).2 with
    | nil => exact absurd hcc hp
    | cons x xs => rfl
  have h1 : migrationBatchStep docs extract true true getParentId deleteTable
      deleteColumn tableName columns =
      [SqlOp.deleteWhereIn deleteTable deleteColumn
          (collectStep3 docs extract true getParentId).2,
        SqlOp.insertInto tableName columns
          (collectStep3 docs extract true getParentId).1] := by
    simp [migrationBatchStep, step4Ops, hbv', hp']
  refine ⟨h1, ?_, ?_⟩
  · intro i j op1 op2 hgi hgj hd hins
    rw [h1] at hgi hgj
    match j, hgj with
    | 0, hgj =>
        simp only [List.getElem?_cons_zero, Option.some.injEq] at hgj
        rw [← hgj] at hins
        simp [isInsertOp] at hins
    | 1, hgj =>
        match i, hgi with
        | 0, hgi => omega
        | 1, hgi =>
            simp only [List.getElem?_cons_succ, List.getElem?_cons_zero,
              Option.some.injEq] at hgi
            rw [← hgi] at hd
            simp [isDeleteOp] at hd
        | n + 2, hgi =>
            simp at hgi
    | m + 2, hgj =>
        simp at hgj
  · intro state r hr hnm
    rw [h1]
    simp only [applySqlOps, List.foldl_cons, List.foldl_nil, applySqlOp]
    refine List.mem_append_left _ ?_
    exact List.mem_filter.mpr ⟨hr, by simp [hnm]⟩

/-- Extraction function of the delete-and-insert witness: each user
document yields one relationship row. -/
def extractW : Nat → Option ExtractValues :=
  fun d =>
    if d = 1 then some (.inl [[PyValue.str "u1", PyValue.str "e1"]])
    else some (.inl [[PyValue.str "u2", PyValue.str "e2"]])

/-- Parent-id function of the delete-and-insert witness. -/
def getParentIdW : Nat → String := fun d => if d = 1 then "u1" else "u2"

theorem C2_delete_precedes_insert_and_scoped_witness :
    (collectStep3 [1, 2] extractW true getParentIdW).1 ≠ []
    ∧ (collectStep3 [1, 2] extractW true getParentIdW).2 ≠ []
    ∧ migrationBatchStep [1, 2] extractW true true getParentIdW
        "user_events" "user_id" "user_events" ["user_id", "event_id"] =
      [SqlOp.deleteWhereIn "user_events" "user_id" ["u1", "u2"],
        SqlOp.insertInto "user_events" ["user_id", "event_id"]
          [[PyValue.str "u1", PyValue.str "e1"],
            [PyValue.str "u2", PyValue.str "e2"]]] := by
  refine ⟨by decide, by decide, ?_⟩
  have h := (C2_delete_precedes_insert_and_scoped [1, 2] extractW
    getParentIdW "user_events" "user_id" "user_events"
    ["user_id", "event_id"] (by decide) (by decide)).1
  exact h.trans (by decide)

theorem sqlMax_eq_none (l : List Nat) : sqlMax l = none ↔ l = [] := by
  cases l with
  | nil => simp [sqlMax]
  | cons a t =>
      simp only [sqlMax]
      cases sqlMax t <;> simp

theorem sqlMax_ne_none (l : List Nat) (h : l ≠ []) :
    ∃ m, sqlMax l = some m := by
  cases hm : sqlMax l with
  | none => exact absurd ((sqlMax_eq_none l).mp hm) h
  | some m => exact ⟨m, rfl⟩

theorem sqlMax_le (l : List Nat) :
    ∀ (x : Nat), sqlMax l = some x → ∀ y ∈ l, y ≤ x := by
  induction l with
  | nil => intro x h; simp [sqlMax] at h
  | cons a t ih =>
      intro x h y hy
      cases ht : sqlMax t with
      | none =>
          have hte : t = [] := (sqlMax_eq_none t).mp ht
          subst hte
          simp only [sqlMax, Option.some.injEq] at h
          subst h
          rcases List.mem_singleton.mp hy with rfl
          omega
      | some m =>
          simp only [sqlMax, ht, Option.some.injEq] at h
          subst h
          rcases List.mem_cons.mp hy with rfl | hyt
          · exact Nat.le_max_left y m
          · exact le_trans (ih m ht y hyt) (Nat.le_max_right a m)

theorem sqlMax_mem (l : List Nat) :
    ∀ (x : Nat), sqlMax l = some x → x ∈ l := by
  induction l with
  | nil => intro x h; simp [sqlMax] at h
  | cons a t ih =>
      intro x h
      cases ht : sqlMax t with
      | none =>
          have hte : t = [] := (sqlMax_eq_none t).mp ht
          subst hte
          simp only [sqlMax, Option.some.injEq] at h
          subst h
          exact List.mem_cons_self a []
      | some m =>
          simp only [sqlMax, ht, Option.some.injEq] at h
          subst h
          rcases Nat.le_total a m with hle | hle
          · have hx : a.max m = m := Nat.max_eq_right hle
            rw [hx]
            exact List.mem_cons_of_mem a (ih m ht)
          · have hx : a.max m = a := Nat.max_eq_left hle
            rw [hx]
            exact List.mem_cons_self a t

/-- Claim C5: the watermark is the SQL value
`GREATEST(COALESCE(MAX(created_at), epoch), COALESCE(MAX(updated_at),
epoch))`; the function returns null exactly when that value is the
epoch sentinel — in particular on an empty table, forcing a
full import — and otherwise returns the greatest `created_at`/`updated_at`
timestamp present in the table. -/
theorem C5_watermark_epoch_sentinel (rows : List (Nat × Nat)) :
    (rows = [] → get_last_insert_date rows = none)
    ∧ (get_last_insert_date rows = none ↔
        watermarkQuery rows = epochSentinel)
    ∧ (∀ w, get_last_insert_date rows = some w →
        w = watermarkQuery rows
        ∧ (∀ p ∈ rows, p.1 ≤ w ∧ p.2 ≤ w)
        ∧ ∃ p ∈ rows, w = p.1 ∨ w = p.2) := by
  refine ⟨?_, ?_, ?_⟩
  · intro h
    subst h
    rfl
  · by_cases h : watermarkQuery rows = epochSentinel <;>
      simp [get_last_insert_date, h]
  · intro w hw
    have hne : rows ≠ [] := by
      intro h
      subst h
      simp [get_last_insert_date, watermarkQuery, sqlMax,
        epochSentinel] at hw
    have hw2 : w = watermarkQuery rows := by
      by_cases h : watermarkQuery rows = epochSentinel <;>
        simp [get_last_insert_date, h] at hw
      exact hw.symm
    subst hw2
    have hcne : rows.map Prod.fst ≠ [] := by
      intro h
      exact hne (by simpa using h)
    have hune : rows.map Prod.snd ≠ [] := by
      intro h
      exact hne (by simpa using h)
    obtain ⟨mc, hmc⟩ := sqlMax_ne_none _ hcne
    obtain ⟨mu, hmu⟩ := sqlMax_ne_none _ hune
    refine ⟨rfl, ?_, ?_⟩
    · intro p hp
      have h1 : p.1 ≤ mc :=
        sqlMax_le _ mc hmc p.1 (List.mem_map_of_mem Prod.fst hp)
      have h2 : p.2 ≤ mu :=
        sqlMax_le _ mu hmu p.2 (List.mem_map_of_mem Prod.snd hp)
      simp only [watermarkQuery, hmc, hmu, Option.getD_some]
      constructor
      · exact le_trans h1 (Nat.le_max_left _ _)
      · exact le_trans h2 (Nat.le_max_right _ _)
    · simp only [watermarkQuery, hmc, hmu, Option.getD_some]
      rcases Nat.le_total mc mu with hle | hle
      · have hx : mc.max mu = mu := Nat.max_eq_right hle
        rw [hx]
        obtain ⟨p, hp, hpe⟩ := List.mem_map.mp (sqlMax_mem _ mu hmu)
        exact ⟨p, hp, Or.inr hpe.symm⟩
      · have hx : mc.max mu = mc := Nat.max_eq_left hle
        rw [hx]
        obtain ⟨p, hp, hpe⟩ := List.mem_map.mp (sqlMax_mem _ mc hmc)
        exact ⟨p, hp, Or.inl hpe.symm⟩

theorem C5_watermark_epoch_sentinel_witness :
    get_last_insert_date [(5, 7), (3, 9)] = some 9
    ∧ watermarkQuery [(5, 7), (3, 9)] = 9 := by
  refine ⟨by decide, ?_⟩
  have h := ((C5_watermark_epoch_sentinel [(5, 7), (3, 9)]).2.2 9
    (by decide)).1
  exact h.symm

/-- Claim C6: the effective `after_date` is the per-table watermark when
the global floor is absent, the floor when the watermark is absent
(hence null when both are absent), and otherwise the earlier of the
two — never later than the watermark, so the floor can only widen the
sync window backward. -/
theorem C6_apply_global_threshold (table_date global_threshold : Option Nat) :
    (global_threshold = none →
      apply_global_threshold table_date global_threshold = table_date)
    ∧ (table_date = none →
        apply_global_threshold table_date global_threshold =
          global_threshold)
    ∧ (∀ a b, table_date = some a → global_threshold = some b →
        apply_global_threshold table_date global_threshold =
          some (Nat.min a b)
        ∧ Nat.min a b ≤ a ∧ Nat.min a b ≤ b) := by
  refine ⟨?_, ?_, ?_⟩
  · intro h
    subst h
    rfl
  · intro h
    subst h
    cases global_threshold <;> rfl
  · intro a b h1 h2
    subst h1
    subst h2
    exact ⟨rfl, Nat.min_le_left a b, Nat.min_le_right a b⟩

theorem C6_apply_global_threshold_witness :
    (some 10 : Option Nat) = some 10
    ∧ (some 4 : Option Nat) = some 4
    ∧ apply_global_threshold (some 10) (some 4) = some 4
    ∧ (4 : Nat) ≤ 10 := by
  refine ⟨rfl, rfl, ?_, by decide⟩
  have h := ((C6_apply_global_threshold (some 10) (some 4)).2.2 10 4 rfl
    rfl).1
  exact h.trans (by decide)

/-- Claim C7, counterexample: a well-formed `TableSchema` whose
primary-key column is named `key` rather than `id`.  The claim predicts
an `ON CONFLICT (key) DO UPDATE` clause for an insert that includes the
updatable column `note`, but `get_on_conflict_clause` keys its first
branch on a column literally named `id` and emits the empty string. -/
theorem C7_on_conflict_clause_counterexample :
    (pkNotIdSchema.columns.any fun c => c.primary_key) = true
    ∧ TableSchema.get_on_conflict_clause pkNotIdSchema
        (some ["key", "note"]) = ""
    ∧ TableSchema.get_on_conflict_clause pkNotIdSchema
        (some ["key", "note"]) ≠
      " ON CONFLICT (key) DO UPDATE SET note = EXCLUDED.note" := by
  refine ⟨by decide, by decide, by decide⟩

/-- Claim C7, amended: the primary-key branch fires only for a
primary-key column literally named `id`, targeting `(id)`; an empty or
absent insert-column list is treated as all schema columns (the Python
truthiness of the argument).  With an `id` primary key the clause
updates every non-primary-key column present in the insert and degrades
to `DO NOTHING` when there is none; without one, a non-empty
`unique_constraints` list targets the first constraint and updates the
other insert columns; with neither the clause is empty. -/
theorem C7_on_conflict_clause_amended (ts : TableSchema)
    (columns : Option (List String)) :
    (hasIdPkColumn ts = true →
      (pkUpdateColumns ts columns ≠ [] →
        ts.get_on_conflict_clause columns =
          " ON CONFLICT (id) DO UPDATE SET " ++
            String.intercalate ", " (pkUpdateColumns ts columns))
      ∧ (pkUpdateColumns ts columns = [] →
          ts.get_on_conflict_clause columns =
            " ON CONFLICT (id) DO NOTHING"))
    ∧ (hasIdPkColumn ts = false → ∀ uc0 rest,
        ts.unique_constraints = some (uc0 :: rest) →
        (ucUpdateColumns ts uc0 columns ≠ [] →
          ts.get_on_conflict_clause columns =
            " ON CONFLICT (" ++ String.intercalate ", " uc0 ++
              ") DO UPDATE SET " ++
              String.intercalate ", " (ucUpdateColumns ts uc0 columns))
        ∧ (ucUpdateColumns ts uc0 columns = [] →
            ts.get_on_conflict_clause columns =
              " ON CONFLICT (" ++ String.intercalate ", " uc0 ++
                ") DO NOTHING"))
    ∧ (hasIdPkColumn ts = false →
        (ts.unique_constraints = none ∨ ts.unique_constraints = some []) →
        ts.get_on_conflict_clause columns = "") := by
  have hfnone : hasIdPkColumn ts = false →
      (ts.columns.find? fun c => c.name = "id" && c.primary_key) = none := by
    intro hpk
    rw [List.find?_eq_none]
    intro x hx hcontra
    have htrue : hasIdPkColumn ts = true :=
      List.any_eq_true.mpr ⟨x, hx, hcontra⟩
    rw [htrue] at hpk
    cases hpk
  refine ⟨?_, ?_, ?_⟩
  · intro hpk
    obtain ⟨c0, hc0, hc0p⟩ := List.any_eq_true.mp hpk
    have hf : (ts.columns.find? fun c =>
        c.name = "id" && c.primary_key).isSome = true := by
      rw [List.find?_isSome]
      exact ⟨c0, hc0, hc0p⟩
    cases hfe : ts.columns.find? fun c => c.name = "id" && c.primary_key
      with
    | none => rw [hfe] at hf; simp at hf
    | some cfound =>
        constructor
        · intro hup
          have hup' : (pkUpdateColumns ts columns).isEmpty = false := by
            cases hq : pkUpdateColumns ts columns with
            | nil => exact absurd hq hup
            | cons q qs => rfl
          simp [TableSchema.get_on_conflict_clause, hfe, hup']
        · intro hup
          have hup' : (pkUpdateColumns ts columns).isEmpty = true := by
            rw [hup]; rfl
          simp [TableSchema.get_on_conflict_clause, hfe, hup']
  · intro hpk uc0 rest huc
    have hf := hfnone hpk
    constructor
    · intro hup
      have hup' : (ucUpdateColumns ts uc0 columns).isEmpty = false := by
        cases hq : ucUpdateColumns ts uc0 columns with
        | nil => exact absurd hq hup
        | cons q qs => rfl
      simp [TableSchema.get_on_conflict_clause, hf, huc, hup']
    · intro hup
      have hup' : (ucUpdateColumns ts uc0 columns).isEmpty = true := by
        rw [hup]; rfl
      simp [TableSchema.get_on_conflict_clause, hf, huc, hup']
  · intro hpk huc
    have hf := hfnone hpk
    rcases huc with huc | huc <;>
      simp [TableSchema.get_on_conflict_clause, hf, huc]

theorem C7_on_conflict_clause_amended_witness :
    hasIdPkColumn ingredientsSchema = true
    ∧ pkUpdateColumns ingredientsSchema none ≠ []
    ∧ ingredientsSchema.get_on_conflict_clause none =
      " ON CONFLICT (id) DO UPDATE SET created_at = EXCLUDED.created_at, updated_at = EXCLUDED.updated_at, name = EXCLUDED.name" := by
  refine ⟨by decide, by decide, ?_⟩
  have h := ((C7_on_conflict_clause_amended ingredientsSchema none).1
    (by decide)).1 (by decide)
  exact h.trans (by decide)

/-- Claim C8: the `TableSchema` dataclass does not declare the
`force_reimport` and `truncate_before_import` fields that
`run_migration` reads on every registered schema, so attribute access
on any schema fails instead of selecting the claimed full-reimport and
truncate behaviour. -/
theorem C8_schema_missing_flag_fields :
    tableSchemaFieldNames.contains runnerForceReimportAttr = false
    ∧ tableSchemaFieldNames.contains runnerTruncateBeforeImportAttr =
      false := by
  refine ⟨by decide, by decide⟩
